import Mathlib

/-!
Verification of the Earthpit calculator (src/Earthpit.py).

The script computes, from a pit type, a plate material, a soil type and three
positive numbers, a recommended pit depth, an expected resistance, an
installation checklist, an inspection schedule and a document export.  The
Python code works on IEEE-754 doubles; the embedding idealizes that arithmetic
as exact rational arithmetic, with the constant `math.pi` modelled by its
16-significant-digit decimal value, and models Python's `round(x, 2)`
(round-half-to-even) exactly on rationals.
-/

namespace Earthpit

/-- The three pit types offered by the first selectbox (lines 37-41). -/
inductive PitType
  | regularPit
  | chemicalEarthingPit
  | maintenanceFreePit
deriving DecidableEq, Fintype

/-- The two plate materials offered by the second selectbox (line 44). -/
inductive PlateMaterial
  | galvanizedIron
  | copper
deriving DecidableEq, Fintype

/-- The five soil types offered by the third selectbox (lines 47-53). -/
inductive SoilType
  | loamy
  | clay
  | sandy
  | rocky
  | blackCotton
deriving DecidableEq, Fintype

/-- The display string held by the `pit_type` variable (lines 37-41). -/
def pit_type_name : PitType → String
  | .regularPit => "Regular Pit"
  | .chemicalEarthingPit => "Chemical Earthing Pit"
  | .maintenanceFreePit => "Maintenance-Free Pit"

/-- The display string held by the `plate_material` variable (line 44). -/
def plate_material_name : PlateMaterial → String
  | .galvanizedIron => "GI (Galvanized Iron)"
  | .copper => "Copper"

/-- The display string held by the `soil_type` variable (lines 47-53). -/
def soil_type_name : SoilType → String
  | .loamy => "Loamy Soil"
  | .clay => "Clay Soil"
  | .sandy => "Sandy Soil"
  | .rocky => "Rocky Soil"
  | .blackCotton => "Black Cotton Soil"

/-- `material_factor` from the plate-material branch (lines 78-87). -/
def material_factor : PlateMaterial → ℚ
  | .galvanizedIron => 1.0
  | .copper => 0.5

/-- `strip_type` from the plate-material branch (lines 78-87). -/
def strip_type : PlateMaterial → String
  | .galvanizedIron => "GI"
  | .copper => "Copper"

/-- The `soil_factors` dictionary (lines 90-96). -/
def soil_factors : SoilType → ℚ
  | .loamy => 1.0
  | .clay => 1.2
  | .sandy => 1.5
  | .rocky => 2.0
  | .blackCotton => 0.8

/-- The `depth_factor` entries of the `pit_configs` dictionary (lines 99-118). -/
def depth_factor : PitType → ℚ
  | .regularPit => 1.0
  | .chemicalEarthingPit => 0.7
  | .maintenanceFreePit => 0.8

/-- Rational model of the IEEE double `math.pi` used in line 121, via its
16-significant-digit decimal expansion. -/
def mathPi : ℚ := 3.141592653589793

/-- Python's `round` to an integer on an exact rational: round half to even. -/
def pyRoundInt (x : ℚ) : ℤ :=
  if Int.fract x < 1/2 then ⌊x⌋
  else if 1/2 < Int.fract x then ⌊x⌋ + 1
  else if ⌊x⌋ % 2 = 0 then ⌊x⌋ else ⌊x⌋ + 1

/-- Python's `round(x, 2)`: round to two decimal places, half to even. -/
def round2 (x : ℚ) : ℚ := (pyRoundInt (x * 100) : ℚ) / 100

/-- `base_depth` (line 121): the raw depth before the pit-type factor.  Total
version: Lean's rational division returns 0 on a zero divisor; the fallible
version `pit_depth_run` below mirrors Python's ZeroDivisionError. -/
def base_depth (pm : PlateMaterial) (st : SoilType)
    (resistivity desired_resistance : ℚ) : ℚ :=
  resistivity * material_factor pm * soil_factors st
    / (4 * mathPi * desired_resistance)

/-- `pit_depth` (line 122): the base depth scaled by the pit-type factor and
rounded to two decimals. -/
def pit_depth (pt : PitType) (pm : PlateMaterial) (st : SoilType)
    (resistivity desired_resistance : ℚ) : ℚ :=
  round2 (base_depth pm st resistivity desired_resistance * depth_factor pt)

/-- The errors a run of the depth computation could surface.  The script
defines no InvalidInput error anywhere; the constructor is present to state
that fact. -/
inductive CalcError
  | zeroDivisionError
  | invalidInput
deriving DecidableEq

/-- Division as Python executes it: a zero divisor raises ZeroDivisionError. -/
def pyDiv (a b : ℚ) : Except CalcError ℚ :=
  if b = 0 then Except.error CalcError.zeroDivisionError else Except.ok (a / b)

/-- The depth computation as the script actually runs it (lines 121-122): no
validation of any kind precedes the division. -/
def pit_depth_run (pt : PitType) (pm : PlateMaterial) (st : SoilType)
    (resistivity desired_resistance : ℚ) : Except CalcError ℚ :=
  (pyDiv (resistivity * material_factor pm * soil_factors st)
      (4 * mathPi * desired_resistance)).map
    (fun bd => round2 (bd * depth_factor pt))

/-- The constraint the input layer enforces through `st.number_input`
minimums (lines 59-72): resistivity at least 1, desired resistance at least
0.1, strip length at least 1. -/
def valid_input (resistivity desired_resistance strip_length : ℚ) : Prop :=
  1 ≤ resistivity ∧ 0.1 ≤ desired_resistance ∧ 1 ≤ strip_length

/-- The expected-resistance display value (line 133). -/
def expected_resistance (pt : PitType) (desired_resistance : ℚ) : ℚ :=
  round2 (desired_resistance * depth_factor pt)

/-- The `components` dictionary of the installation checklist (lines 171-178),
in insertion order: component name paired with its installed flag. -/
def components (pt : PitType) (pm : PlateMaterial) : List (String × Bool) :=
  [("Earthing Plate", true),
   (strip_type pm ++ " Strip", true),
   ("Filling Material", true),
   ("Moisture Control", pt != .maintenanceFreePit),
   ("Chemical Compound", pt == .chemicalEarthingPit),
   ("Inspection Chamber", true)]

/-- One row of the inspection-schedule table (lines 232-250). -/
structure Activity where
  activity : String
  frequency : String
  notes : String
deriving DecidableEq

/-- The `basic_activities` list (lines 232-236). -/
def basic_activities : List Activity :=
  [⟨"Visual Inspection", "Every inspection", "Check for physical damage"⟩,
   ⟨"Resistance Measurement", "Every inspection", "Should be ≤ 10 ohms"⟩,
   ⟨"Connection Check", "Every inspection", "Verify all connections are tight"⟩]

/-- The `additional_activities` list chosen by the pit-type branch
(lines 238-248). -/
def additional_activities : PitType → List Activity
  | .regularPit =>
      [⟨"Moisture Check", "Monthly", "Maintain adequate moisture"⟩,
       ⟨"Salt/Coal Level Check", "Quarterly", "Replenish if needed"⟩]
  | .chemicalEarthingPit =>
      [⟨"Chemical Compound Check", "Every 2 years", "Check compound conductivity"⟩]
  | .maintenanceFreePit => []

/-- The rows of `inspection_df` (line 250): base activities followed by the
pit-type-specific ones. -/
def inspection_schedule (pt : PitType) : List Activity :=
  basic_activities ++ additional_activities pt

/-- An element of the exported document, abstracting the python-docx calls. -/
inductive DocItem
  | heading (text : String) (level : Nat)
  | paragraph (text : String)
  | table (style : String) (rows : List (List String))
deriving DecidableEq

/-- The document built by `to_word` (lines 263-295): title, the pit
specification paragraphs, and the inspection table whose first row is the
header and whose remaining rows mirror `inspection_df` in order. -/
def to_word (pt : PitType) (pm : PlateMaterial) (st : SoilType) : List DocItem :=
  [DocItem.heading ("Earthpit Inspection Schedule") 0,
   DocItem.heading ("Pit Specifications") 1,
   DocItem.paragraph ("Pit Type: " ++ pit_type_name pt),
   DocItem.paragraph ("Plate Material: " ++ plate_material_name pm),
   DocItem.paragraph ("Soil Type: " ++ soil_type_name st),
   DocItem.heading ("Inspection Schedule") 1,
   DocItem.table ("Table Grid")
     (["Activity", "Frequency", "Notes"] ::
       (inspection_schedule pt).map (fun a => [a.activity, a.frequency, a.notes]))]

/-- Modelled from the spec: the static installation-cost table of section 4.1.
The cost computation belongs to a file variant of this repository that is not
present under src/; the table values are the ones the spec lists. -/
def base_cost : PitType → PlateMaterial → ℚ
  | .regularPit, .galvanizedIron => 15000
  | .regularPit, .copper => 25000
  | .chemicalEarthingPit, .galvanizedIron => 20000
  | .chemicalEarthingPit, .copper => 30000
  | .maintenanceFreePit, .galvanizedIron => 25000
  | .maintenanceFreePit, .copper => 35000

/-- Modelled from the spec: `depth_cost = pit_depth * 1000`, the cost per
metre of depth; the computation is absent from src/. -/
def depth_cost (pt : PitType) (pm : PlateMaterial) (st : SoilType)
    (resistivity desired_resistance : ℚ) : ℚ :=
  pit_depth pt pm st resistivity desired_resistance * 1000

/-- Modelled from the spec: `total_cost = base_cost + depth_cost *
soil_complexity`; the computation is absent from src/.  The spec names a
soil_complexity coefficient per soil type but lists no values beyond the
worked example's Loamy = 1.0, so the table is the parameter `sc`. -/
def total_cost (sc : SoilType → ℚ) (pt : PitType) (pm : PlateMaterial)
    (st : SoilType) (resistivity desired_resistance : ℚ) : ℚ :=
  base_cost pt pm + depth_cost pt pm st resistivity desired_resistance * sc st

/-! ## Helper lemmas -/

theorem mathPi_pos : 0 < mathPi := by norm_num [mathPi]

theorem material_factor_pos (pm : PlateMaterial) : 0 < material_factor pm := by
  cases pm <;> norm_num [material_factor]

theorem soil_factors_pos (st : SoilType) : 0 < soil_factors st := by
  cases st <;> norm_num [soil_factors]

theorem depth_factor_pos (pt : PitType) : 0 < depth_factor pt := by
  cases pt <;> norm_num [depth_factor]

theorem floor_le_pyRoundInt (x : ℚ) : ⌊x⌋ ≤ pyRoundInt x := by
  unfold pyRoundInt
  split_ifs <;> omega

theorem pyRoundInt_le_floor_add_one (x : ℚ) : pyRoundInt x ≤ ⌊x⌋ + 1 := by
  unfold pyRoundInt
  split_ifs <;> omega

/-- Round-half-to-even is monotone. -/
theorem pyRoundInt_mono {x y : ℚ} (h : x ≤ y) : pyRoundInt x ≤ pyRoundInt y := by
  rcases lt_or_eq_of_le (Int.floor_le_floor h) with hf | hf
  · calc pyRoundInt x ≤ ⌊x⌋ + 1 := pyRoundInt_le_floor_add_one x
      _ ≤ ⌊y⌋ := by omega
      _ ≤ pyRoundInt y := floor_le_pyRoundInt y
  · have hfr : Int.fract x ≤ Int.fract y := by
      unfold Int.fract
      rw [hf]
      linarith
    unfold pyRoundInt
    rw [hf]
    split_ifs <;> first | omega | linarith

/-- Rounding to two decimals is monotone. -/
theorem round2_mono {x y : ℚ} (h : x ≤ y) : round2 x ≤ round2 y := by
  unfold round2
  have := pyRoundInt_mono (show x * 100 ≤ y * 100 by linarith)
  have hc : ((pyRoundInt (x * 100) : ℚ)) ≤ ((pyRoundInt (y * 100) : ℚ)) := by
    exact_mod_cast this
  linarith

/-! ## Claim theorems -/

/-- C1: the claim says a desired resistance of 0 (or any numeric field at or
below its minimum) raises InvalidInput before any computation and never
propagates a division by zero.  The script contradicts it: no validation of
any kind exists, and at desired_resistance = 0 the division in line 121 raises
ZeroDivisionError.  This theorem evaluates the code at that failing input and
shows the only error any run can produce is ZeroDivisionError, never
InvalidInput. -/
theorem c1_zero_resistance_division_error :
    pit_depth_run .regularPit .galvanizedIron .loamy 100 0
      = Except.error CalcError.zeroDivisionError ∧
    ∀ (pt : PitType) (pm : PlateMaterial) (st : SoilType) (r dr : ℚ),
      pit_depth_run pt pm st r dr = Except.error CalcError.zeroDivisionError ∨
      ∃ d, pit_depth_run pt pm st r dr = Except.ok d := by
  constructor
  · norm_num [pit_depth_run, pyDiv, mathPi, Except.map]
  · intro pt pm st r dr
    unfold pit_depth_run pyDiv
    split_ifs
    · left
      rfl
    · right
      exact ⟨_, rfl⟩

/-- C2: total_cost = base_cost + depth_cost * soil_complexity for every
combination, with the spec's static base-cost table, and the worked example
yields 16590 whenever the Loamy complexity coefficient is the example's 1.0.
The cost code lives in a file variant absent from src/ and is modelled from
the spec. -/
theorem c2_total_cost_formula :
    (∀ (sc : SoilType → ℚ) (pt : PitType) (pm : PlateMaterial) (st : SoilType)
        (r dr : ℚ),
        total_cost sc pt pm st r dr
          = base_cost pt pm + pit_depth pt pm st r dr * 1000 * sc st) ∧
    base_cost .regularPit .galvanizedIron = 15000 ∧
    base_cost .regularPit .copper = 25000 ∧
    base_cost .chemicalEarthingPit .galvanizedIron = 20000 ∧
    base_cost .chemicalEarthingPit .copper = 30000 ∧
    base_cost .maintenanceFreePit .galvanizedIron = 25000 ∧
    base_cost .maintenanceFreePit .copper = 35000 ∧
    ∀ (sc : SoilType → ℚ), sc .loamy = 1 →
      total_cost sc .regularPit .galvanizedIron .loamy 100 5 = 16590 := by
  refine ⟨fun sc pt pm st r dr => rfl, rfl, rfl, rfl, rfl, rfl, rfl, ?_⟩
  intro sc hsc
  norm_num [total_cost, depth_cost, base_cost, pit_depth, base_depth, round2,
    pyRoundInt, Int.fract, material_factor, soil_factors, depth_factor, mathPi, hsc]

/-- Witness for C2 at the concrete complexity table that is constantly 1. -/
theorem c2_total_cost_formula_witness :
    total_cost (fun _ => 1) .regularPit .galvanizedIron .loamy 100 5 = 16590 :=
  c2_total_cost_formula.2.2.2.2.2.2.2 (fun _ => 1) rfl

/-- C3: pit depth is the rounded depth formula, and the worked example with
resistivity 100, desired resistance 5, GI, Loamy, Regular gives 1.59. -/
theorem c3_pit_depth_formula :
    (∀ (pt : PitType) (pm : PlateMaterial) (st : SoilType) (r dr : ℚ),
        pit_depth pt pm st r dr
          = round2 (r * material_factor pm * soil_factors st
              / (4 * mathPi * dr) * depth_factor pt)) ∧
    pit_depth .regularPit .galvanizedIron .loamy 100 5 = 1.59 := by
  refine ⟨fun pt pm st r dr => rfl, ?_⟩
  norm_num [pit_depth, base_depth, round2, pyRoundInt, Int.fract, material_factor,
    soil_factors, depth_factor, mathPi]

/-- C4: with the other inputs fixed, pit depth is non-increasing in the
desired resistance and non-decreasing in the resistivity, through the
two-decimal rounding. -/
theorem c4_pit_depth_monotone :
    (∀ (pt : PitType) (pm : PlateMaterial) (st : SoilType) (r dr₁ dr₂ : ℚ),
        0 ≤ r → 0 < dr₁ → dr₁ ≤ dr₂ →
        pit_depth pt pm st r dr₂ ≤ pit_depth pt pm st r dr₁) ∧
    (∀ (pt : PitType) (pm : PlateMaterial) (st : SoilType) (r₁ r₂ dr : ℚ),
        0 ≤ r₁ → r₁ ≤ r₂ → 0 < dr →
        pit_depth pt pm st r₁ dr ≤ pit_depth pt pm st r₂ dr) := by
  have h4pi : (0:ℚ) < 4 * mathPi := by norm_num [mathPi]
  constructor
  · intro pt pm st r dr₁ dr₂ hr h1 h12
    apply round2_mono
    unfold base_depth
    have hA : 0 ≤ r * material_factor pm * soil_factors st :=
      mul_nonneg (mul_nonneg hr (material_factor_pos pm).le) (soil_factors_pos st).le
    have hd1 : 0 < 4 * mathPi * dr₁ := mul_pos h4pi h1
    have hle : 4 * mathPi * dr₁ ≤ 4 * mathPi * dr₂ :=
      mul_le_mul_of_nonneg_left h12 h4pi.le
    exact mul_le_mul_of_nonneg_right
      (div_le_div_of_nonneg_left hA hd1 hle) (depth_factor_pos pt).le
  · intro pt pm st r₁ r₂ dr hr hrr hdr
    apply round2_mono
    unfold base_depth
    have hd : 0 < 4 * mathPi * dr := mul_pos h4pi hdr
    have hnum : r₁ * material_factor pm * soil_factors st
        ≤ r₂ * material_factor pm * soil_factors st :=
      mul_le_mul_of_nonneg_right
        (mul_le_mul_of_nonneg_right hrr (material_factor_pos pm).le)
        (soil_factors_pos st).le
    exact mul_le_mul_of_nonneg_right
      (div_le_div_of_nonneg_right hnum hd.le) (depth_factor_pos pt).le

/-- Witness for C4 at concrete inputs. -/
theorem c4_pit_depth_monotone_witness :
    pit_depth .regularPit .galvanizedIron .loamy 100 10
      ≤ pit_depth .regularPit .galvanizedIron .loamy 100 5 ∧
    pit_depth .regularPit .galvanizedIron .loamy 100 5
      ≤ pit_depth .regularPit .galvanizedIron .loamy 200 5 :=
  ⟨c4_pit_depth_monotone.1 .regularPit .galvanizedIron .loamy 100 5 10
      (by norm_num) (by norm_num) (by norm_num),
   c4_pit_depth_monotone.2 .regularPit .galvanizedIron .loamy 100 200 5
      (by norm_num) (by norm_num) (by norm_num)⟩

/-- C5: every schedule contains the three base activities; a Regular pit adds
the monthly Moisture Check and the quarterly Salt/Coal Level Check, a Chemical
pit adds the Chemical Compound Check every 2 years, a Maintenance-Free pit
adds nothing, and the lengths are 5, 4 and 3.  The schedule is built from the
pit type alone, so the other inputs cannot affect it. -/
theorem c5_inspection_schedule_contents :
    (∀ pt, (⟨"Visual Inspection", "Every inspection", "Check for physical damage"⟩ : Activity)
        ∈ inspection_schedule pt ∧
      (⟨"Resistance Measurement", "Every inspection", "Should be ≤ 10 ohms"⟩ : Activity)
        ∈ inspection_schedule pt ∧
      (⟨"Connection Check", "Every inspection", "Verify all connections are tight"⟩ : Activity)
        ∈ inspection_schedule pt) ∧
    (⟨"Moisture Check", "Monthly", "Maintain adequate moisture"⟩ : Activity)
      ∈ inspection_schedule .regularPit ∧
    (⟨"Salt/Coal Level Check", "Quarterly", "Replenish if needed"⟩ : Activity)
      ∈ inspection_schedule .regularPit ∧
    (⟨"Chemical Compound Check", "Every 2 years", "Check compound conductivity"⟩ : Activity)
      ∈ inspection_schedule .chemicalEarthingPit ∧
    inspection_schedule .maintenanceFreePit = basic_activities ∧
    (inspection_schedule .regularPit).length = 5 ∧
    (inspection_schedule .chemicalEarthingPit).length = 4 ∧
    (inspection_schedule .maintenanceFreePit).length = 3 := by
  decide

/-- C6: the checklist always has six components; Moisture Control is installed
exactly when the pit is not Maintenance-Free, Chemical Compound exactly when
it is Chemical, the remaining four are always installed, and no component
other than those two conditional ones is ever marked uninstalled. -/
theorem c6_components_checklist :
    ∀ (pt : PitType) (pm : PlateMaterial),
      (components pt pm).length = 6 ∧
      (("Moisture Control", true) ∈ components pt pm ↔ pt ≠ .maintenanceFreePit) ∧
      (("Chemical Compound", true) ∈ components pt pm ↔ pt = .chemicalEarthingPit) ∧
      ("Earthing Plate", true) ∈ components pt pm ∧
      (strip_type pm ++ " Strip", true) ∈ components pt pm ∧
      ("Filling Material", true) ∈ components pt pm ∧
      ("Inspection Chamber", true) ∈ components pt pm ∧
      (components pt pm).all
        (fun c => c.2 || (c.1 == "Moisture Control")
          || (c.1 == "Chemical Compound")) = true := by
  decide

/-- C7: the displayed expected resistance is the desired resistance scaled by
the pit-type depth factor and rounded to two decimals, and the pit depth is
fully determined by the depth formula over the raw inputs, in which the
expected-resistance value does not occur. -/
theorem c7_expected_resistance_display :
    (∀ (pt : PitType) (dr : ℚ),
        expected_resistance pt dr = round2 (dr * depth_factor pt)) ∧
    (∀ (pt : PitType) (pm : PlateMaterial) (st : SoilType) (r dr : ℚ),
        pit_depth pt pm st r dr
          = round2 (r * material_factor pm * soil_factors st
              / (4 * mathPi * dr) * depth_factor pt)) ∧
    expected_resistance .regularPit 5 = 5 ∧
    expected_resistance .chemicalEarthingPit 5 = 3.5 := by
  refine ⟨fun pt dr => rfl, fun pt pm st r dr => rfl, ?_, ?_⟩ <;>
    norm_num [expected_resistance, round2, pyRoundInt, Int.fract, depth_factor]

/-- C8: the exported document is the title, the Pit Specifications section
with the three selection strings as plain paragraphs in order, and the
Inspection Schedule section as a grid table whose first row is the header and
whose remaining rows are the schedule entries in order, one row each. -/
theorem c8_to_word_document :
    ∀ (pt : PitType) (pm : PlateMaterial) (st : SoilType),
      to_word pt pm st =
        [DocItem.heading ("Earthpit Inspection Schedule") 0,
         DocItem.heading ("Pit Specifications") 1,
         DocItem.paragraph ("Pit Type: " ++ pit_type_name pt),
         DocItem.paragraph ("Plate Material: " ++ plate_material_name pm),
         DocItem.paragraph ("Soil Type: " ++ soil_type_name st),
         DocItem.heading ("Inspection Schedule") 1,
         DocItem.table ("Table Grid")
           (["Activity", "Frequency", "Notes"] ::
             (inspection_schedule pt).map
               (fun a => [a.activity, a.frequency, a.notes]))] ∧
      (["Activity", "Frequency", "Notes"] ::
          (inspection_schedule pt).map
            (fun a => [a.activity, a.frequency, a.notes])).length
        = (inspection_schedule pt).length + 1 := by
  intro pt pm st
  exact ⟨rfl, by simp⟩

/-- C9: with everything else fixed, the Chemical pit depth is at most the
Maintenance-Free pit depth, which is at most the Regular pit depth, and a
Copper plate gives a depth at most that of Galvanized Iron. -/
theorem c9_pit_depth_orderings :
    ∀ (pm : PlateMaterial) (st : SoilType) (r dr : ℚ), 0 ≤ r → 0 < dr →
      (pit_depth .chemicalEarthingPit pm st r dr
          ≤ pit_depth .maintenanceFreePit pm st r dr ∧
       pit_depth .maintenanceFreePit pm st r dr
          ≤ pit_depth .regularPit pm st r dr) ∧
      ∀ pt, pit_depth pt .copper st r dr ≤ pit_depth pt .galvanizedIron st r dr := by
  intro pm st r dr hr hdr
  have h4pi : (0:ℚ) < 4 * mathPi := by norm_num [mathPi]
  have hd : 0 < 4 * mathPi * dr := mul_pos h4pi hdr
  have hbd : ∀ pm0, 0 ≤ base_depth pm0 st r dr := by
    intro pm0
    unfold base_depth
    exact div_nonneg
      (mul_nonneg (mul_nonneg hr (material_factor_pos pm0).le) (soil_factors_pos st).le)
      hd.le
  have hbdle : base_depth .copper st r dr ≤ base_depth .galvanizedIron st r dr := by
    unfold base_depth
    apply div_le_div_of_nonneg_right _ hd.le
    apply mul_le_mul_of_nonneg_right _ (soil_factors_pos st).le
    apply mul_le_mul_of_nonneg_left _ hr
    norm_num [material_factor]
  refine ⟨⟨?_, ?_⟩, ?_⟩
  · apply round2_mono
    apply mul_le_mul_of_nonneg_left _ (hbd pm)
    norm_num [depth_factor]
  · apply round2_mono
    apply mul_le_mul_of_nonneg_left _ (hbd pm)
    norm_num [depth_factor]
  · intro pt
    apply round2_mono
    exact mul_le_mul_of_nonneg_right hbdle (depth_factor_pos pt).le

/-- Witness for C9 at concrete inputs. -/
theorem c9_pit_depth_orderings_witness :
    (pit_depth .chemicalEarthingPit .galvanizedIron .loamy 100 5
       ≤ pit_depth .maintenanceFreePit .galvanizedIron .loamy 100 5) ∧
    (pit_depth .maintenanceFreePit .galvanizedIron .loamy 100 5
       ≤ pit_depth .regularPit .galvanizedIron .loamy 100 5) ∧
    pit_depth .regularPit .copper .loamy 100 5
       ≤ pit_depth .regularPit .galvanizedIron .loamy 100 5 :=
  ⟨(c9_pit_depth_orderings .galvanizedIron .loamy 100 5 (by norm_num) (by norm_num)).1.1,
   (c9_pit_depth_orderings .galvanizedIron .loamy 100 5 (by norm_num) (by norm_num)).1.2,
   (c9_pit_depth_orderings .galvanizedIron .loamy 100 5 (by norm_num) (by norm_num)).2
     .regularPit⟩

/-- C10: for every pit type the first three schedule entries are exactly the
base activities in order, and every entry after them is one of the
pit-type-specific activities. -/
theorem c10_schedule_base_entries_first :
    ∀ pt, (inspection_schedule pt).take 3 =
        [⟨"Visual Inspection", "Every inspection", "Check for physical damage"⟩,
         ⟨"Resistance Measurement", "Every inspection", "Should be ≤ 10 ohms"⟩,
         ⟨"Connection Check", "Every inspection", "Verify all connections are tight"⟩] ∧
      ((inspection_schedule pt).drop 3).all
        (fun a => ["Moisture Check", "Salt/Coal Level Check",
          "Chemical Compound Check"].contains a.activity) = true := by
  decide

end Earthpit
